import Mathlib

/-!
Shallow embedding of the recommendation engine of `itzcole03/StatmusePicker`
(`src/server/analyzer.ts`).  JavaScript numbers are modelled as exact rationals
(`ℚ`); the one place where IEEE-double behaviour is observable on its own —
division by a zero `lineScore` producing `Infinity`/`NaN` — is modelled
explicitly (`absPercentDiffGT`), following the source semantics.  JS number
rendering inside reasoning strings (template interpolation of `lineScore`) is
abstracted by `toString`; the fixed English clause templates are kept verbatim.
-/

set_option linter.unusedVariables false

namespace StatmusePicker

/-- The `consistency` field of `PlayerStatsSummary` (statmuse.ts line 15). -/
inductive Consistency where
  | high
  | medium
  | low
deriving DecidableEq, Repr

/-- The `trend` field of `PlayerStatsSummary` (statmuse.ts line 16). -/
inductive Trend where
  | increasing
  | stable
  | decreasing
deriving DecidableEq, Repr

/-- The `recommendation` union type of `AnalysisResult` (analyzer.ts line 9). -/
inductive Recommendation where
  | over
  | under
  | skip
deriving DecidableEq, Repr

/-- Embeds `PlayerStatsSummary` (statmuse.ts lines 8-17). -/
structure PlayerStatsSummary where
  playerName : String
  sport : String
  statType : String
  recentAverage : Option ℚ
  last5Games : List ℚ
  last10Games : List ℚ
  consistency : Consistency
  trend : Trend
deriving DecidableEq, Repr

/-- Embeds `AnalysisResult` (analyzer.ts lines 8-14).  `confidenceScore` is a JS
number; the function always stores `Math.round` of the clamped score in it. -/
structure AnalysisResult where
  recommendation : Recommendation
  confidenceScore : ℚ
  reasoning : String
  recentAverage : Option String
  gamesAnalyzed : ℕ
deriving DecidableEq, Repr

/-- JS `Math.round`: round half toward positive infinity. -/
def jsRound (x : ℚ) : ℤ := ⌊x + 1 / 2⌋

/-- JS `Number.prototype.toFixed(1)`: sign, then the integer nearest to
`10 * |x|` with ties going up, rendered with one decimal digit. -/
def toFixed1 (x : ℚ) : String :=
  let sign := if x < 0 then "-" else ""
  let n : ℤ := ⌊10 * |x| + 1 / 2⌋
  sign ++ toString (n / 10) ++ "." ++ toString (n % 10)

/-- Embeds `calculateVariance` (analyzer.ts lines 19-27): population variance of the
values; the source returns `Math.sqrt` of it (a standard deviation).  `ℚ` is
not closed under square roots, so the embedding stops at the variance; the
returned value never influences `analyzeProjection`'s output (the claim C9
theorem below shows the output is invariant under replacing this function by an
arbitrary one), so the missing monotone `sqrt` is immaterial. -/
def calculateVariance (values : List ℚ) : ℚ :=
  if values.length = 0 then 0
  else
    let mean := values.sum / values.length
    let squaredDiffs := values.map (fun val => (val - mean) ^ 2)
    squaredDiffs.sum / values.length

/-- The JS comparison `Math.abs(difference / lineScore * 100) > t`
(analyzer.ts lines 51, 68, 73).  On doubles, `lineScore = 0` gives
`±Infinity` when `difference ≠ 0` (comparison true) and `NaN` when
`difference = 0` (comparison false); otherwise the comparison is the exact
rational one. -/
def absPercentDiffGT (difference lineScore t : ℚ) : Bool :=
  if lineScore = 0 then decide (difference ≠ 0)
  else decide (|difference / lineScore * 100| > t)

/-- Embeds `gamesOver` (analyzer.ts line 54). -/
def gamesOverCount (lineScore : ℚ) (last5Games : List ℚ) : ℕ :=
  (last5Games.filter (fun val => decide (val > lineScore))).length

/-- Embeds `gamesUnder` (analyzer.ts line 55). -/
def gamesUnderCount (lineScore : ℚ) (last5Games : List ℚ) : ℕ :=
  (last5Games.filter (fun val => decide (val < lineScore))).length

/-- Embeds `hitRate` (analyzer.ts line 56). -/
def hitRate (lineScore : ℚ) (last5Games : List ℚ) : ℚ :=
  ((max (gamesOverCount lineScore last5Games) (gamesUnderCount lineScore last5Games) : ℕ) : ℚ)
    / (last5Games.length : ℚ)

/-- Rendering of a `Recommendation` into the reasoning template of
analyzer.ts line 82. -/
def Recommendation.name : Recommendation → String
  | .over => "over"
  | .under => "under"
  | .skip => "skip"

/-- Rendering of `Math.abs(percentDifference).toFixed(1)` (analyzer.ts
line 72): at `lineScore = 0` the JS value is `Infinity` and `toFixed`
renders it as the string `Infinity`. -/
def pctStr (difference lineScore : ℚ) : String :=
  if lineScore = 0 then "Infinity" else toFixed1 |difference / lineScore * 100|

/-- The base recommendation / base confidence / initial reasoning block of
`analyzeProjection` (analyzer.ts lines 62-88), with `difference`,
`gamesOver`, `gamesUnder`, `hitRate` per lines 50-56. -/
def determineBase (lineScore recentAverage : ℚ) (last5Games : List ℚ) :
    Recommendation × ℤ × String :=
  let difference := recentAverage - lineScore
  let gamesOver := gamesOverCount lineScore last5Games
  let gamesUnder := gamesUnderCount lineScore last5Games
  let hr := hitRate lineScore last5Games
  let avgStr := toFixed1 recentAverage
  let lineStr := toString lineScore
  if absPercentDiffGT difference lineScore 15 then
    ((if difference > 0 then Recommendation.over else Recommendation.under), 70,
      "Player\x27s recent average (" ++ avgStr ++ ") is " ++ pctStr difference lineScore
        ++ "% " ++ (if difference > 0 then "above" else "below")
        ++ " the line (" ++ lineStr ++ "). ")
  else if absPercentDiffGT difference lineScore 8 then
    ((if difference > 0 then Recommendation.over else Recommendation.under), 55,
      "Player\x27s recent average (" ++ avgStr ++ ") is moderately "
        ++ (if difference > 0 then "above" else "below")
        ++ " the line (" ++ lineStr ++ "). ")
  else if hr ≥ 4 / 5 then
    ((if gamesOver > gamesUnder then Recommendation.over else Recommendation.under), 60,
      "Player has hit "
        ++ (if gamesOver > gamesUnder then Recommendation.over else Recommendation.under).name
        ++ " in " ++ toString (max gamesOver gamesUnder) ++ " of last "
        ++ toString last5Games.length ++ " games. ")
  else
    (Recommendation.skip, 30,
      "Line (" ++ lineStr ++ ") is close to recent average (" ++ avgStr
        ++ "), making this a coin flip. ")

/-- Consistency adjustment block (analyzer.ts lines 90-98): adjustment and
updated reasoning. -/
def consistencyStep (consistency : Consistency) (reasoning : String) : ℤ × String :=
  match consistency with
  | .high => (10, reasoning ++ "Player shows high consistency. ")
  | .low => (-15, reasoning ++ "Player shows high variance in performance. ")
  | .medium => (0, reasoning)

/-- Trend adjustment block (analyzer.ts lines 100-113): accumulated
adjustment and updated reasoning. -/
def trendStep (trend : Trend) (recommendation : Recommendation)
    (confidenceAdjustment : ℤ) (reasoning : String) : ℤ × String :=
  if trend = .increasing ∧ recommendation = .over then
    (confidenceAdjustment + 10, reasoning ++ "Player is trending upward. ")
  else if trend = .decreasing ∧ recommendation = .under then
    (confidenceAdjustment + 10, reasoning ++ "Player is trending downward. ")
  else if trend = .increasing ∧ recommendation = .under then
    (confidenceAdjustment - 10, reasoning ++ "Caution: Player is trending upward. ")
  else if trend = .decreasing ∧ recommendation = .over then
    (confidenceAdjustment - 10, reasoning ++ "Caution: Player is trending downward. ")
  else
    (confidenceAdjustment, reasoning)

/-- Embeds `analyzeProjection` (analyzer.ts lines 32-131). -/
def analyzeProjection (lineScore : ℚ) (playerStats : PlayerStatsSummary) : AnalysisResult :=
  match playerStats.recentAverage with
  | none =>
    { recommendation := .skip
      confidenceScore := 0
      reasoning := "Insufficient data available for analysis"
      recentAverage := none
      gamesAnalyzed := 0 }
  | some recentAverage =>
    if playerStats.last5Games.length = 0 then
      { recommendation := .skip
        confidenceScore := 0
        reasoning := "Insufficient data available for analysis"
        recentAverage := none
        gamesAnalyzed := 0 }
    else
      let last5Games := playerStats.last5Games
      let stdDev := calculateVariance last5Games
      let coefficientOfVariation := stdDev / recentAverage
      let base := determineBase lineScore recentAverage last5Games
      let recommendation := base.1
      let baseConfidence := base.2.1
      let afterConsistency := consistencyStep playerStats.consistency base.2.2
      let afterTrend :=
        trendStep playerStats.trend recommendation afterConsistency.1 afterConsistency.2
      let confidenceScore : ℚ := max 0 (min 100 ((baseConfidence : ℚ) + (afterTrend.1 : ℚ)))
      let final : Recommendation × String :=
        if confidenceScore < 45 ∧ recommendation ≠ .skip then
          (.skip, afterTrend.2 ++ "Low confidence - recommend skipping this pick.")
        else
          (recommendation, afterTrend.2)
      { recommendation := final.1
        confidenceScore := (jsRound confidenceScore : ℚ)
        reasoning := (final.2).trim
        recentAverage := some (toFixed1 recentAverage)
        gamesAnalyzed := last5Games.length }

/-- Element type of the `batchAnalyze` input array (analyzer.ts line 137). -/
structure ProjectionItem where
  lineScore : ℚ
  playerStats : PlayerStatsSummary
deriving DecidableEq, Repr

/-- Embeds `batchAnalyze` (analyzer.ts lines 136-142). -/
def batchAnalyze (projections : List ProjectionItem) : List AnalysisResult :=
  projections.map (fun p => analyzeProjection p.lineScore p.playerStats)

/-- Variant of `analyzeProjection` with the standard-deviation computation (analyzer.ts
line 59, `calculateVariance`) replaced by an arbitrary function.  Used only to
state that the computed standard deviation and coefficient of variation never
influence the output (claim C9): the body is identical to `analyzeProjection`
except for `varFn`. -/
def analyzeProjectionWith (varFn : List ℚ → ℚ) (lineScore : ℚ)
    (playerStats : PlayerStatsSummary) : AnalysisResult :=
  match playerStats.recentAverage with
  | none =>
    { recommendation := .skip
      confidenceScore := 0
      reasoning := "Insufficient data available for analysis"
      recentAverage := none
      gamesAnalyzed := 0 }
  | some recentAverage =>
    if playerStats.last5Games.length = 0 then
      { recommendation := .skip
        confidenceScore := 0
        reasoning := "Insufficient data available for analysis"
        recentAverage := none
        gamesAnalyzed := 0 }
    else
      let last5Games := playerStats.last5Games
      let stdDev := varFn last5Games
      let coefficientOfVariation := stdDev / recentAverage
      let base := determineBase lineScore recentAverage last5Games
      let recommendation := base.1
      let baseConfidence := base.2.1
      let afterConsistency := consistencyStep playerStats.consistency base.2.2
      let afterTrend :=
        trendStep playerStats.trend recommendation afterConsistency.1 afterConsistency.2
      let confidenceScore : ℚ := max 0 (min 100 ((baseConfidence : ℚ) + (afterTrend.1 : ℚ)))
      let final : Recommendation × String :=
        if confidenceScore < 45 ∧ recommendation ≠ .skip then
          (.skip, afterTrend.2 ++ "Low confidence - recommend skipping this pick.")
        else
          (recommendation, afterTrend.2)
      { recommendation := final.1
        confidenceScore := (jsRound confidenceScore : ℚ)
        reasoning := (final.2).trim
        recentAverage := some (toFixed1 recentAverage)
        gamesAnalyzed := last5Games.length }

/-! ## Claim-side (spec-worded) definitions

The following definitions are written from the wording of the claims, to be
compared against the source-translated definitions above. -/

/-- Clamp an integer score to the closed interval `[0, 100]`. -/
def clampZ (x : ℤ) : ℤ := max 0 (min 100 x)

/-- Claim C3's base-recommendation rule, written from the claim text:
priority order over `percentDifference = difference / lineScore * 100`
(exact rational arithmetic; meaningful for `lineScore ≠ 0`), `gamesOver` /
`gamesUnder` as strict counts, and `hitRate = max / length`. -/
def claimBaseRec (lineScore recentAverage : ℚ) (last5Games : List ℚ) : Recommendation :=
  let difference := recentAverage - lineScore
  let percentDifference := difference / lineScore * 100
  let gamesOver := (last5Games.filter (fun v => decide (v > lineScore))).length
  let gamesUnder := (last5Games.filter (fun v => decide (v < lineScore))).length
  let hr : ℚ := ((max gamesOver gamesUnder : ℕ) : ℚ) / (last5Games.length : ℚ)
  if |percentDifference| > 15 then
    (if difference > 0 then .over else .under)
  else if |percentDifference| > 8 then
    (if difference > 0 then .over else .under)
  else if hr ≥ 4 / 5 then
    (if gamesOver > gamesUnder then .over else .under)
  else .skip

/-- Claim C3's base-confidence rule, written from the claim text. -/
def claimBaseConf (lineScore recentAverage : ℚ) (last5Games : List ℚ) : ℤ :=
  let difference := recentAverage - lineScore
  let percentDifference := difference / lineScore * 100
  let gamesOver := (last5Games.filter (fun v => decide (v > lineScore))).length
  let gamesUnder := (last5Games.filter (fun v => decide (v < lineScore))).length
  let hr : ℚ := ((max gamesOver gamesUnder : ℕ) : ℚ) / (last5Games.length : ℚ)
  if |percentDifference| > 15 then 70
  else if |percentDifference| > 8 then 55
  else if hr ≥ 4 / 5 then 60
  else 30

/-- Claim C4's consistency adjustment, written from the claim text:
`+10` for high, `-15` for low, `0` for medium. -/
def consAdjClaim : Consistency → ℤ
  | .high => 10
  | .low => -15
  | .medium => 0

/-- Claim C4's trend adjustment, written from the claim text: `+10` when the
trend agrees with the recommendation direction, `-10` when it opposes it,
`0` otherwise. -/
def trendAdjClaim (trend : Trend) (recommendation : Recommendation) : ℤ :=
  if (trend = .increasing ∧ recommendation = .over)
      ∨ (trend = .decreasing ∧ recommendation = .under) then 10
  else if (trend = .increasing ∧ recommendation = .under)
      ∨ (trend = .decreasing ∧ recommendation = .over) then -10
  else 0

/-! ## Concrete sample inputs used by the witness theorems -/

/-- A summary with a null recent average but a non-empty games list. -/
def statsC1 : PlayerStatsSummary :=
  { playerName := "Sample One", sport := "NBA", statType := "points",
    recentAverage := none, last5Games := [1, 2, 3], last10Games := [1, 2, 3],
    consistency := .medium, trend := .stable }

/-- A guard-passing summary: average 25 against a line of 20 (25 percent over). -/
def statsC3 : PlayerStatsSummary :=
  { playerName := "Sample Three", sport := "NBA", statType := "points",
    recentAverage := some 25, last5Games := [24, 26, 25, 27, 23], last10Games := [],
    consistency := .high, trend := .increasing }

/-- A guard-passing summary for the adjustment-formula witness. -/
def statsC4 : PlayerStatsSummary :=
  { playerName := "Sample Four", sport := "NBA", statType := "rebounds",
    recentAverage := some 25, last5Games := [24, 26, 25, 27, 23], last10Games := [],
    consistency := .medium, trend := .stable }

/-- Average 22 against a line of 20 (the 8-15 percent branch, base 55) with low
consistency (minus 15) and an opposing decreasing trend (minus 10): clamped
score 30, which is below 45. -/
def statsC5 : PlayerStatsSummary :=
  { playerName := "Sample Five", sport := "NBA", statType := "points",
    recentAverage := some 22, last5Games := [22, 21, 23, 22, 22], last10Games := [],
    consistency := .low, trend := .decreasing }

/-- A summary with nonzero average, for the zero line score edge case. -/
def statsC6 : PlayerStatsSummary :=
  { playerName := "Sample Six", sport := "NBA", statType := "assists",
    recentAverage := some 5, last5Games := [4, 5, 6], last10Games := [],
    consistency := .medium, trend := .stable }

/-- A one-item batch input. -/
def projC7 : List ProjectionItem :=
  [{ lineScore := 20, playerStats := statsC1 }]

/-- Example 1 of the spec: recommendation over with confidence 90. -/
def statsC8 : PlayerStatsSummary :=
  { playerName := "Sample Eight", sport := "NBA", statType := "points",
    recentAverage := some 25, last5Games := [24, 26, 25, 27, 23], last10Games := [],
    consistency := .high, trend := .increasing }

/-- First of a pair of summaries that agree on every analysis-relevant field. -/
def statsC9a : PlayerStatsSummary :=
  { playerName := "Sample Nine A", sport := "NBA", statType := "points",
    recentAverage := some 25, last5Games := [24, 26, 25, 27, 23],
    last10Games := [24, 26, 25, 27, 23, 20, 21, 22, 23, 24],
    consistency := .high, trend := .increasing }

/-- Second of the pair: same five analysis-relevant fields as `statsC9a`, but a
different name, sport, stat type and `last10Games`. -/
def statsC9b : PlayerStatsSummary :=
  { playerName := "Sample Nine B", sport := "NFL", statType := "yards",
    recentAverage := some 25, last5Games := [24, 26, 25, 27, 23], last10Games := [99],
    consistency := .high, trend := .increasing }

/-! ## Helper lemmas -/

lemma consistencyStep_fst (c : Consistency) (r : String) :
    (consistencyStep c r).1 = consAdjClaim c := by
  cases c <;> rfl

lemma trendStep_fst (t : Trend) (rec : Recommendation) (a : ℤ) (r : String) :
    (trendStep t rec a r).1 = a + trendAdjClaim t rec := by
  cases t <;> cases rec <;> simp [trendStep, trendAdjClaim] <;> ring

lemma jsRound_intCast (n : ℤ) : jsRound ((n : ℤ) : ℚ) = n := by
  unfold jsRound
  rw [add_comm, Int.floor_add_int]
  norm_num

lemma clampZ_castQ (x : ℤ) : ((clampZ x : ℤ) : ℚ) = max 0 (min 100 ((x : ℤ) : ℚ)) := by
  simp [clampZ]

/-- On the guard branch (analyzer.ts lines 39-47) the result is the fixed
insufficient-data record. -/
lemma analyzeProjection_guard (lineScore : ℚ) (stats : PlayerStatsSummary)
    (h : stats.recentAverage = none ∨ stats.last5Games = []) :
    analyzeProjection lineScore stats =
      { recommendation := .skip, confidenceScore := 0,
        reasoning := "Insufficient data available for analysis",
        recentAverage := none, gamesAnalyzed := 0 } := by
  obtain ⟨pn, sp, st, ora, l5, l10, cns, tr⟩ := stats
  rcases h with h | h <;> dsimp only at h <;> subst h
  · rfl
  · cases ora <;> rfl

/-- Off the guard branch, the stored confidence score is the clamp of the base
confidence plus the consistency and trend adjustments. -/
lemma analyzeProjection_conf_eq (lineScore ra : ℚ) (s : PlayerStatsSummary)
    (hra : s.recentAverage = some ra) (h5 : s.last5Games ≠ []) :
    (analyzeProjection lineScore s).confidenceScore =
      ((clampZ ((determineBase lineScore ra s.last5Games).2.1
          + consAdjClaim s.consistency
          + trendAdjClaim s.trend (determineBase lineScore ra s.last5Games).1) : ℤ) : ℚ) := by
  obtain ⟨pn, sp, st, ora, l5, l10, cns, tr⟩ := s
  dsimp only at hra h5 ⊢
  subst hra
  have h0 : ¬ l5.length = 0 := by simpa [List.length_eq_zero] using h5
  simp only [analyzeProjection, h0, if_false, trendStep_fst, consistencyStep_fst]
  rw [← Int.cast_add, ← add_assoc, ← clampZ_castQ, jsRound_intCast]

/-- Off the guard branch, the final recommendation is the base one unless the
clamped score is below 45 and the base one is not skip. -/
lemma analyzeProjection_rec_eq (lineScore ra : ℚ) (s : PlayerStatsSummary)
    (hra : s.recentAverage = some ra) (h5 : s.last5Games ≠ []) :
    (analyzeProjection lineScore s).recommendation =
      (if clampZ ((determineBase lineScore ra s.last5Games).2.1
            + consAdjClaim s.consistency
            + trendAdjClaim s.trend (determineBase lineScore ra s.last5Games).1) < 45
          ∧ (determineBase lineScore ra s.last5Games).1 ≠ .skip
        then .skip else (determineBase lineScore ra s.last5Games).1) := by
  obtain ⟨pn, sp, st, ora, l5, l10, cns, tr⟩ := s
  dsimp only at hra h5 ⊢
  subst hra
  have h0 : ¬ l5.length = 0 := by simpa [List.length_eq_zero] using h5
  simp only [analyzeProjection, h0, if_false, trendStep_fst, consistencyStep_fst]
  rw [show ((determineBase lineScore ra l5).2.1 : ℚ)
      + ((consAdjClaim cns + trendAdjClaim tr (determineBase lineScore ra l5).1 : ℤ) : ℚ)
      = (((determineBase lineScore ra l5).2.1 + consAdjClaim cns
          + trendAdjClaim tr (determineBase lineScore ra l5).1 : ℤ) : ℚ) by
    push_cast
    ring]
  rw [← clampZ_castQ]
  have hcond : (((clampZ ((determineBase lineScore ra l5).2.1 + consAdjClaim cns
      + trendAdjClaim tr (determineBase lineScore ra l5).1) : ℤ) : ℚ) < 45)
      ↔ (clampZ ((determineBase lineScore ra l5).2.1 + consAdjClaim cns
          + trendAdjClaim tr (determineBase lineScore ra l5).1) < 45) := by
    exact_mod_cast Iff.rfl
  simp only [hcond]
  split_ifs <;> rfl

/-- Off the guard branch, the games-analyzed and formatted-average fields. -/
lemma analyzeProjection_games_eq (lineScore ra : ℚ) (s : PlayerStatsSummary)
    (hra : s.recentAverage = some ra) (h5 : s.last5Games ≠ []) :
    (analyzeProjection lineScore s).gamesAnalyzed = s.last5Games.length ∧
    (analyzeProjection lineScore s).recentAverage = some (toFixed1 ra) := by
  obtain ⟨pn, sp, st, ora, l5, l10, cns, tr⟩ := s
  dsimp only at hra h5 ⊢
  subst hra
  have h0 : ¬ l5.length = 0 := by simpa [List.length_eq_zero] using h5
  simp [analyzeProjection, h0]


/-- Claim C1: whenever the recent average is null or the last-five list is
empty, analyzeProjection returns exactly the fixed insufficient-data record,
with gamesAnalyzed 0 even when the games list is non-empty. -/
theorem claim_C1 (lineScore : ℚ) (stats : PlayerStatsSummary)
    (h : stats.recentAverage = none ∨ stats.last5Games = []) :
    analyzeProjection lineScore stats =
      { recommendation := .skip, confidenceScore := 0,
        reasoning := "Insufficient data available for analysis",
        recentAverage := none, gamesAnalyzed := 0 } :=
  analyzeProjection_guard lineScore stats h

/-- Witness for claim C1 at a concrete input with a null average and a
non-empty games list. -/
theorem claim_C1_witness :
    analyzeProjection 10 statsC1 =
      { recommendation := .skip, confidenceScore := 0,
        reasoning := "Insufficient data available for analysis",
        recentAverage := none, gamesAnalyzed := 0 } :=
  claim_C1 10 statsC1 (Or.inl rfl)

/-- Claim C3: off the guard branch (and for a nonzero line, where the percent
difference formula of the claim is meaningful; the zero line is the
subject of claim C6), the base recommendation and base confidence of the code
equal those computed by the priority rule stated in the claim. -/
theorem claim_C3 (lineScore recentAverage : ℚ) (stats : PlayerStatsSummary)
    (hra : stats.recentAverage = some recentAverage) (h5 : stats.last5Games ≠ [])
    (hl : lineScore ≠ 0) :
    (determineBase lineScore recentAverage stats.last5Games).1
        = claimBaseRec lineScore recentAverage stats.last5Games ∧
    (determineBase lineScore recentAverage stats.last5Games).2.1
        = claimBaseConf lineScore recentAverage stats.last5Games := by
  constructor <;>
    simp only [determineBase, claimBaseRec, claimBaseConf, absPercentDiffGT, hl, if_false,
      gamesOverCount, gamesUnderCount, hitRate, decide_eq_true_eq] <;>
    split_ifs <;> rfl

/-- Witness for claim C3 at a concrete guard-passing input. -/
theorem claim_C3_witness :
    (determineBase 20 25 statsC3.last5Games).1 = claimBaseRec 20 25 statsC3.last5Games ∧
    (determineBase 20 25 statsC3.last5Games).2.1 = claimBaseConf 20 25 statsC3.last5Games :=
  claim_C3 20 25 statsC3 rfl (by simp [statsC3]) (by norm_num)

/-- Claim C4: off the guard branch the final confidence score equals the clamp
to the interval from 0 to 100 of the base confidence plus the consistency
adjustment plus the trend adjustment, where the adjustments follow the rules
stated in the claim (and apply whatever the base recommendation is). -/
theorem claim_C4 (lineScore recentAverage : ℚ) (stats : PlayerStatsSummary)
    (hra : stats.recentAverage = some recentAverage) (h5 : stats.last5Games ≠ []) :
    (analyzeProjection lineScore stats).confidenceScore =
      ((clampZ ((determineBase lineScore recentAverage stats.last5Games).2.1
          + consAdjClaim stats.consistency
          + trendAdjClaim stats.trend
              (determineBase lineScore recentAverage stats.last5Games).1) : ℤ) : ℚ) :=
  analyzeProjection_conf_eq lineScore recentAverage stats hra h5

/-- Witness for claim C4 at a concrete guard-passing input. -/
theorem claim_C4_witness :
    (analyzeProjection 20 statsC4).confidenceScore =
      ((clampZ ((determineBase 20 25 statsC4.last5Games).2.1
          + consAdjClaim statsC4.consistency
          + trendAdjClaim statsC4.trend (determineBase 20 25 statsC4.last5Games).1) : ℤ) : ℚ) :=
  claim_C4 20 25 statsC4 rfl (by simp [statsC4])

/-- Claim C9: the output of analyzeProjection does not depend on last10Games,
playerName, sport or statType, and the computed standard deviation and
coefficient of variation never influence it: replacing the variance function
by an arbitrary one and changing those fields leaves the result unchanged. -/
theorem claim_C9 (varFn : List ℚ → ℚ) (lineScore : ℚ) (s1 s2 : PlayerStatsSummary)
    (h1 : s1.recentAverage = s2.recentAverage) (h2 : s1.last5Games = s2.last5Games)
    (h3 : s1.consistency = s2.consistency) (h4 : s1.trend = s2.trend) :
    analyzeProjectionWith varFn lineScore s1 = analyzeProjection lineScore s2 := by
  obtain ⟨pn1, sp1, st1, ora1, l51, l101, cns1, tr1⟩ := s1
  obtain ⟨pn2, sp2, st2, ora2, l52, l102, cns2, tr2⟩ := s2
  dsimp only at h1 h2 h3 h4
  subst h1
  subst h2
  subst h3
  subst h4
  cases ora1 <;> rfl

/-- Witness for claim C9: two summaries differing in name, sport, stat type
and last10Games, and a nontrivial replacement variance function, give the
same analysis. -/
theorem claim_C9_witness :
    analyzeProjectionWith (fun _ => 999) 20 statsC9a = analyzeProjection 20 statsC9b :=
  claim_C9 (fun _ => 999) 20 statsC9a statsC9b rfl rfl rfl rfl


/-- Claim C2: for every input the stored confidence score is an integer in
the closed interval from 0 to 100. -/
theorem claim_C2 (lineScore : ℚ) (stats : PlayerStatsSummary) :
    ∃ n : ℤ, (analyzeProjection lineScore stats).confidenceScore = (n : ℚ)
      ∧ 0 ≤ n ∧ n ≤ 100 := by
  rcases hcase : stats.recentAverage with _ | ra
  · rw [analyzeProjection_guard lineScore stats (Or.inl hcase)]
    exact ⟨0, by norm_num, le_refl 0, by norm_num⟩
  · by_cases h5 : stats.last5Games = []
    · rw [analyzeProjection_guard lineScore stats (Or.inr h5)]
      exact ⟨0, by norm_num, le_refl 0, by norm_num⟩
    · refine ⟨clampZ ((determineBase lineScore ra stats.last5Games).2.1
        + consAdjClaim stats.consistency
        + trendAdjClaim stats.trend (determineBase lineScore ra stats.last5Games).1),
        analyzeProjection_conf_eq lineScore ra stats hcase h5, le_max_left 0 _,
        max_le (by norm_num) (min_le_left 100 _)⟩

/-- Claim C5: off the guard branch, when the clamped score is below 45 and
the base recommendation is not skip, the function returns skip while the
stored confidence score keeps the clamped value. -/
theorem claim_C5 (lineScore recentAverage : ℚ) (stats : PlayerStatsSummary)
    (hra : stats.recentAverage = some recentAverage) (h5 : stats.last5Games ≠ [])
    (hlow : clampZ ((determineBase lineScore recentAverage stats.last5Games).2.1
        + consAdjClaim stats.consistency
        + trendAdjClaim stats.trend
            (determineBase lineScore recentAverage stats.last5Games).1) < 45)
    (hrec : (determineBase lineScore recentAverage stats.last5Games).1 ≠ .skip) :
    (analyzeProjection lineScore stats).recommendation = .skip ∧
    (analyzeProjection lineScore stats).confidenceScore =
      ((clampZ ((determineBase lineScore recentAverage stats.last5Games).2.1
          + consAdjClaim stats.consistency
          + trendAdjClaim stats.trend
              (determineBase lineScore recentAverage stats.last5Games).1) : ℤ) : ℚ) := by
  refine ⟨?_, analyzeProjection_conf_eq lineScore recentAverage stats hra h5⟩
  rw [analyzeProjection_rec_eq lineScore recentAverage stats hra h5]
  rw [if_pos ⟨hlow, hrec⟩]

/-- Witness for claim C5: the 8-15 percent branch with low consistency and an
opposing trend gives recommendation skip with confidence score kept at 30. -/
theorem claim_C5_witness :
    ((analyzeProjection 20 statsC5).recommendation = .skip ∧
      (analyzeProjection 20 statsC5).confidenceScore =
        ((clampZ ((determineBase 20 22 statsC5.last5Games).2.1
            + consAdjClaim statsC5.consistency
            + trendAdjClaim statsC5.trend (determineBase 20 22 statsC5.last5Games).1) : ℤ) : ℚ)) ∧
    (analyzeProjection 20 statsC5).confidenceScore = 30 := by
  have h5ne : statsC5.last5Games ≠ [] := by simp [statsC5]
  have e1 : (determineBase 20 22 statsC5.last5Games).2.1 = 55 := by
    norm_num [determineBase, absPercentDiffGT, gamesOverCount, gamesUnderCount, hitRate,
      List.filter, statsC5]
  have e2 : (determineBase 20 22 statsC5.last5Games).1 = .over := by
    norm_num [determineBase, absPercentDiffGT, gamesOverCount, gamesUnderCount, hitRate,
      List.filter, statsC5]
  have hlow : clampZ ((determineBase 20 22 statsC5.last5Games).2.1
      + consAdjClaim statsC5.consistency
      + trendAdjClaim statsC5.trend (determineBase 20 22 statsC5.last5Games).1) < 45 := by
    rw [e1, e2]
    decide
  have hrec : (determineBase 20 22 statsC5.last5Games).1 ≠ .skip := by
    rw [e2]
    decide
  refine ⟨claim_C5 20 22 statsC5 rfl h5ne hlow hrec, ?_⟩
  rw [analyzeProjection_conf_eq 20 22 statsC5 rfl h5ne, e1, e2]
  norm_num [show clampZ (55 + consAdjClaim statsC5.consistency
    + trendAdjClaim statsC5.trend Recommendation.over) = 30 from by decide]

/-- Bound used for claim C6: the consistency adjustment is at least minus 15. -/
lemma consAdjClaim_ge (c : Consistency) : -15 ≤ consAdjClaim c := by
  cases c <;> norm_num [consAdjClaim]

/-- Bound used for claim C6: the trend adjustment is at least minus 10. -/
lemma trendAdjClaim_ge (t : Trend) (r : Recommendation) : -10 ≤ trendAdjClaim t r := by
  unfold trendAdjClaim
  split_ifs <;> norm_num

/-- Claim C6: a zero line with a nonzero average and non-empty games list
lands deterministically in the first branch: base confidence 70 and direction
given by the sign of the average; the final recommendation equals that
direction (the score can never drop below 45 from base 70, so the low
confidence override cannot fire). -/
theorem claim_C6 (recentAverage : ℚ) (stats : PlayerStatsSummary)
    (hra : stats.recentAverage = some recentAverage) (hne : recentAverage ≠ 0)
    (h5 : stats.last5Games ≠ []) :
    (determineBase 0 recentAverage stats.last5Games).1
        = (if recentAverage > 0 then .over else .under) ∧
    (determineBase 0 recentAverage stats.last5Games).2.1 = 70 ∧
    (analyzeProjection 0 stats).recommendation
        = (if recentAverage > 0 then .over else .under) := by
  have hbase1 : (determineBase 0 recentAverage stats.last5Games).1
      = (if recentAverage > 0 then .over else .under) := by
    simp only [determineBase, absPercentDiffGT, if_pos rfl, sub_zero, hne, ne_eq,
      not_false_eq_true, decide_True, if_true]
  have hbase2 : (determineBase 0 recentAverage stats.last5Games).2.1 = 70 := by
    simp only [determineBase, absPercentDiffGT, if_pos rfl, sub_zero, hne, ne_eq,
      not_false_eq_true, decide_True, if_true]
  refine ⟨hbase1, hbase2, ?_⟩
  rw [analyzeProjection_rec_eq 0 recentAverage stats hra h5, hbase1, hbase2]
  have h45 : (45 : ℤ) ≤ clampZ (70 + consAdjClaim stats.consistency
      + trendAdjClaim stats.trend (if recentAverage > 0 then .over else .under)) := by
    have hc := consAdjClaim_ge stats.consistency
    have ht := trendAdjClaim_ge stats.trend (if recentAverage > 0 then .over else .under)
    have hx : (45 : ℤ) ≤ 70 + consAdjClaim stats.consistency
        + trendAdjClaim stats.trend (if recentAverage > 0 then .over else .under) := by
      linarith
    exact le_trans (le_min (by norm_num) hx) (le_max_right 0 _)
  rw [if_neg]
  rintro ⟨hlt, -⟩
  exact absurd hlt (not_lt.mpr h45)

/-- Witness for claim C6 at a concrete input with line 0 and average 5. -/
theorem claim_C6_witness :
    (determineBase 0 5 statsC6.last5Games).1 = (if (5 : ℚ) > 0 then .over else .under) ∧
    (determineBase 0 5 statsC6.last5Games).2.1 = 70 ∧
    (analyzeProjection 0 statsC6).recommendation = (if (5 : ℚ) > 0 then .over else .under) :=
  claim_C6 5 statsC6 rfl (by norm_num) (by simp [statsC6])


/-- Claim C7: the batch wrapper maps analyzeProjection over the items,
preserving length and order; each output position depends only on the item at
that position. -/
theorem claim_C7 (projections : List ProjectionItem) (i : ℕ)
    (h : i < projections.length) :
    (batchAnalyze projections).length = projections.length ∧
    (batchAnalyze projections)[i]? =
      some (analyzeProjection (projections.get ⟨i, h⟩).lineScore
        (projections.get ⟨i, h⟩).playerStats) := by
  constructor
  · simp [batchAnalyze]
  · simp [batchAnalyze, List.getElem?_map, List.getElem?_eq_getElem h, List.get_eq_getElem]

/-- Witness for claim C7 on a concrete one-item batch. -/
theorem claim_C7_witness :
    (batchAnalyze projC7).length = projC7.length ∧
    (batchAnalyze projC7)[0]? =
      some (analyzeProjection (projC7.get ⟨0, by simp [projC7]⟩).lineScore
        (projC7.get ⟨0, by simp [projC7]⟩).playerStats) :=
  claim_C7 projC7 0 (by simp [projC7])

/-- Claim C8: a non-skip recommendation is never returned together with a
confidence score below 45. -/
theorem claim_C8 (lineScore : ℚ) (stats : PlayerStatsSummary)
    (h : (analyzeProjection lineScore stats).recommendation ≠ .skip) :
    45 ≤ (analyzeProjection lineScore stats).confidenceScore := by
  rcases hcase : stats.recentAverage with _ | ra
  · rw [analyzeProjection_guard lineScore stats (Or.inl hcase)] at h
    exact absurd rfl h
  · by_cases h5 : stats.last5Games = []
    · rw [analyzeProjection_guard lineScore stats (Or.inr h5)] at h
      exact absurd rfl h
    · rw [analyzeProjection_rec_eq lineScore ra stats hcase h5] at h
      rw [analyzeProjection_conf_eq lineScore ra stats hcase h5]
      by_cases hc : clampZ ((determineBase lineScore ra stats.last5Games).2.1
          + consAdjClaim stats.consistency
          + trendAdjClaim stats.trend (determineBase lineScore ra stats.last5Games).1) < 45
          ∧ (determineBase lineScore ra stats.last5Games).1 ≠ .skip
      · rw [if_pos hc] at h
        exact absurd rfl h
      · rw [if_neg hc] at h
        have h45 : ¬ clampZ ((determineBase lineScore ra stats.last5Games).2.1
            + consAdjClaim stats.consistency
            + trendAdjClaim stats.trend (determineBase lineScore ra stats.last5Games).1)
            < 45 := fun hlt => hc ⟨hlt, h⟩
        exact_mod_cast not_lt.mp h45

/-- Witness for claim C8: the strong over pick of spec example 1 has a
recommendation other than skip, so its score is at least 45. -/
theorem claim_C8_witness :
    45 ≤ (analyzeProjection 20 statsC8).confidenceScore := by
  have e2 : (determineBase 20 25 statsC8.last5Games).1 = .over := by
    norm_num [determineBase, absPercentDiffGT, gamesOverCount, gamesUnderCount, hitRate,
      List.filter, statsC8]
  refine claim_C8 20 statsC8 ?_
  rw [analyzeProjection_rec_eq 20 25 statsC8 rfl (by simp [statsC8])]
  have e1 : (determineBase 20 25 statsC8.last5Games).2.1 = 70 := by
    norm_num [determineBase, absPercentDiffGT, gamesOverCount, gamesUnderCount, hitRate,
      List.filter, statsC8]
  rw [e1, e2]
  decide

/-- A games value is counted by at most one of the two strict filters, so the
over and under counts sum to at most the list length. -/
lemma counts_le (x : ℚ) (l : List ℚ) :
    gamesOverCount x l + gamesUnderCount x l ≤ l.length := by
  induction l with
  | nil => simp [gamesOverCount, gamesUnderCount]
  | cons a t ih =>
    simp only [gamesOverCount, gamesUnderCount, List.filter_cons, List.length_cons] at ih ⊢
    rcases lt_trichotomy a x with hlt | heq | hgt
    · have h1 : ¬ a > x := not_lt.mpr hlt.le
      simp only [hlt, h1, decide_True, decide_False, if_true, if_false, decide_eq_true_eq,
        List.length_cons]
      simp [hlt, h1] at ih ⊢
      omega
    · subst heq
      simp only [lt_irrefl, decide_False, if_false] at ih ⊢
      simp [lt_irrefl] at ih ⊢
      omega
    · have h1 : ¬ a < x := not_lt.mpr hgt.le
      simp [hgt, h1] at ih ⊢
      omega

/-- Claim C10: a hit rate of at least four fifths forces the over and under
counts to differ, so the tie case of the direction choice in the hit-rate
branch is unreachable. -/
theorem claim_C10 (lineScore : ℚ) (last5Games : List ℚ) (h : last5Games ≠ [])
    (hr : hitRate lineScore last5Games ≥ 4 / 5) :
    gamesOverCount lineScore last5Games ≠ gamesUnderCount lineScore last5Games := by
  intro heq
  have hpos : 0 < last5Games.length := List.length_pos.mpr h
  have hn : 0 < (last5Games.length : ℚ) := by exact_mod_cast hpos
  have hsum : ((gamesOverCount lineScore last5Games : ℕ) : ℚ)
      + ((gamesUnderCount lineScore last5Games : ℕ) : ℚ)
      ≤ ((last5Games.length : ℕ) : ℚ) := by
    exact_mod_cast counts_le lineScore last5Games
  unfold hitRate at hr
  rw [ge_iff_le, le_div_iff₀ hn] at hr
  rw [heq, max_self] at hr
  rw [heq] at hsum
  have hone : (1 : ℚ) ≤ ((last5Games.length : ℕ) : ℚ) := by exact_mod_cast hpos
  linarith

/-- Witness for claim C10: with line 0 and all five games above it the hit
rate is 1, and indeed five games over differs from zero games under. -/
theorem claim_C10_witness :
    gamesOverCount 0 [1, 2, 3, 4, 5] ≠ gamesUnderCount 0 [1, 2, 3, 4, 5] :=
  claim_C10 0 [1, 2, 3, 4, 5] (by simp)
    (by norm_num [hitRate, gamesOverCount, gamesUnderCount, List.filter])

end StatmusePicker
